import Mathlib

/-!
# Verification of CogWorks pipeline value types

A shallow embedding of the value types and operations of the CogWorks
pipeline crate (`crates/pipeline/src/types.rs`, `identifiers.rs`,
`errors.rs`), together with theorems checking the natural-language
specification against them.

Rust `f64` values are modelled by `F64`: finite values carry an exact
rational payload, and the non-finite values (`+inf`, `-inf`, `NaN`) are
explicit constructors.  IEEE comparison semantics are preserved (every
comparison involving `NaN` is false); finite addition is modelled as
exact rational addition.
-/

namespace CogWorks

/-- Model of a Rust `f64`: a finite value (exact rational payload) or one
of the three non-finite values. -/
inductive F64 where
  | finite : ℚ → F64
  | posInf : F64
  | negInf : F64
  | nan : F64
deriving DecidableEq, Repr

namespace F64

/-- Rust `f64::is_finite`. -/
def isFinite : F64 → Bool
  | finite _ => true
  | _ => false

/-- Rust `<=` on `f64`: any comparison with `NaN` is false; otherwise the
usual order with `-inf` at the bottom and `+inf` at the top. -/
def le : F64 → F64 → Bool
  | nan, _ => false
  | _, nan => false
  | negInf, _ => true
  | _, posInf => true
  | posInf, _ => false
  | _, negInf => false
  | finite a, finite b => a ≤ b

/-- Rust `<` on `f64`, derived from `le` (false whenever `NaN` is involved). -/
def lt (a b : F64) : Bool :=
  le a b && !(le b a)

/-- Rust `>=` on `f64`. -/
def ge (a b : F64) : Bool := le b a

/-- Rust `>` on `f64`. -/
def gt (a b : F64) : Bool := lt b a

/-- Rust `+` on `f64`; finite addition is modelled exactly. -/
def add : F64 → F64 → F64
  | nan, _ => nan
  | _, nan => nan
  | posInf, negInf => nan
  | negInf, posInf => nan
  | posInf, _ => posInf
  | _, posInf => posInf
  | negInf, _ => negInf
  | _, negInf => negInf
  | finite a, finite b => finite (a + b)

end F64

/-- `TokenCost(f64)` — monetary cost of LLM token usage in USD. -/
structure TokenCost where
  val : F64
deriving DecidableEq, Repr

namespace TokenCost

/-- `TokenCost::new`: `Some` when the value is finite and `>= 0.0`. -/
def new (value : F64) : Option TokenCost :=
  if value.isFinite && F64.ge value (F64.finite 0) then
    some ⟨value⟩
  else
    none

/-- `TokenCost::zero`. -/
def zero : TokenCost := ⟨F64.finite 0⟩

/-- `TokenCost::as_f64`. -/
def as_f64 (c : TokenCost) : F64 := c.val

/-- `impl Add for TokenCost`. -/
def add (a b : TokenCost) : TokenCost := ⟨F64.add a.val b.val⟩

end TokenCost

/-- `CostBudget(f64)` — maximum token cost permitted for a run. -/
structure CostBudget where
  val : F64
deriving DecidableEq, Repr

namespace CostBudget

/-- `CostBudget::new`: `Some` when the limit is finite and `> 0.0`. -/
def new (limit : F64) : Option CostBudget :=
  if limit.isFinite && F64.gt limit (F64.finite 0) then
    some ⟨limit⟩
  else
    none

/-- `CostBudget::as_f64`. -/
def as_f64 (b : CostBudget) : F64 := b.val

/-- `CostBudget::is_exceeded_by`: true when `accumulated >= limit`. -/
def is_exceeded_by (b : CostBudget) (accumulated : TokenCost) : Bool :=
  F64.ge accumulated.as_f64 b.val

end CostBudget

/-- `SatisfactionScore(f64)` — a score in `[0.0, 1.0]`. -/
structure SatisfactionScore where
  val : F64
deriving DecidableEq, Repr

namespace SatisfactionScore

/-- `SatisfactionScore::new`: `Some` when the value is finite and in
`0.0..=1.0`. -/
def new (value : F64) : Option SatisfactionScore :=
  if value.isFinite && (F64.le (F64.finite 0) value && F64.le value (F64.finite 1)) then
    some ⟨value⟩
  else
    none

end SatisfactionScore

/-- `AlignmentScore(f64)` — a score in `[0.0, 1.0]`. -/
structure AlignmentScore where
  val : F64
deriving DecidableEq, Repr

namespace AlignmentScore

/-- `AlignmentScore::new`: `Some` when the value is finite and in
`0.0..=1.0`. -/
def new (value : F64) : Option AlignmentScore :=
  if value.isFinite && (F64.le (F64.finite 0) value && F64.le value (F64.finite 1)) then
    some ⟨value⟩
  else
    none

end AlignmentScore

/-- `ApiVersion { major, minor }` — semantic version of the Extension API. -/
structure ApiVersion where
  major : ℕ
  minor : ℕ
deriving DecidableEq, Repr

namespace ApiVersion

/-- `ApiVersion::new`. -/
def new (major minor : ℕ) : ApiVersion := ⟨major, minor⟩

/-- `ApiVersion::is_compatible_with`: same major and `other.minor >= self.minor`. -/
def is_compatible_with (self other : ApiVersion) : Bool :=
  self.major == other.major && decide (self.minor ≤ other.minor)

end ApiVersion

/-- Fixed-point decimal rendering of an `F64`, mirroring Rust
`format!("{:.6}", v)`: six digits after the decimal point, rounding the
exact value to the nearest multiple of `10^-6`. -/
def F64.formatFixed6 : F64 → String
  | F64.finite q =>
      let n : ℤ := Int.ediv (2 * q.num * 1000000 + (q.den : ℤ)) (2 * (q.den : ℤ))
      let sign := if n < 0 then "-" else ""
      let m := n.natAbs
      let ipart := m / 1000000
      let fpart := m % 1000000
      let fs := toString fpart
      let pad := String.mk (List.replicate (6 - fs.length) '0')
      sign ++ toString ipart ++ "." ++ pad ++ fs
  | F64.posInf => "inf"
  | F64.negInf => "-inf"
  | F64.nan => "NaN"

/-- `impl Display for TokenCost`: `write!(f, "${:.6}", self.0)`. -/
def TokenCost.display (c : TokenCost) : String :=
  "$" ++ F64.formatFixed6 c.val

/-- `impl Display for CostBudget`: `write!(f, "${:.6}", self.0)`. -/
def CostBudget.display (b : CostBudget) : String :=
  "$" ++ F64.formatFixed6 b.val

/-- `NodeId(String)` — a pipeline node name. -/
structure NodeId where
  val : String
deriving DecidableEq, Repr

/-- `string_id!` `new` for `NodeId`: `None` when the value is empty. -/
def NodeId.new (value : String) : Option NodeId :=
  if value.isEmpty then none else some ⟨value⟩

/-- `string_id!` `as_str` for `NodeId`. -/
def NodeId.as_str (x : NodeId) : String := x.val

/-- `EdgeId(String)` — an edge name within a pipeline graph. -/
structure EdgeId where
  val : String
deriving DecidableEq, Repr

/-- `string_id!` `new` for `EdgeId`: `None` when the value is empty. -/
def EdgeId.new (value : String) : Option EdgeId :=
  if value.isEmpty then none else some ⟨value⟩

/-- `string_id!` `as_str` for `EdgeId`. -/
def EdgeId.as_str (x : EdgeId) : String := x.val

/-- `PipelineName(String)` — a named pipeline configuration. -/
structure PipelineName where
  val : String
deriving DecidableEq, Repr

/-- `string_id!` `new` for `PipelineName`: `None` when the value is empty. -/
def PipelineName.new (value : String) : Option PipelineName :=
  if value.isEmpty then none else some ⟨value⟩

/-- `string_id!` `as_str` for `PipelineName`. -/
def PipelineName.as_str (x : PipelineName) : String := x.val

/-- `BranchName(String)` — a Git branch name. -/
structure BranchName where
  val : String
deriving DecidableEq, Repr

/-- `string_id!` `new` for `BranchName`: `None` when the value is empty. -/
def BranchName.new (value : String) : Option BranchName :=
  if value.isEmpty then none else some ⟨value⟩

/-- `string_id!` `as_str` for `BranchName`. -/
def BranchName.as_str (x : BranchName) : String := x.val

/-- `CommitSha(String)` — a Git commit SHA. -/
structure CommitSha where
  val : String
deriving DecidableEq, Repr

/-- `string_id!` `new` for `CommitSha`: `None` when the value is empty. -/
def CommitSha.new (value : String) : Option CommitSha :=
  if value.isEmpty then none else some ⟨value⟩

/-- `string_id!` `as_str` for `CommitSha`. -/
def CommitSha.as_str (x : CommitSha) : String := x.val

/-- `RepositoryId(String)` — a GitHub repository in owner/repo format. -/
structure RepositoryId where
  val : String
deriving DecidableEq, Repr

/-- `string_id!` `new` for `RepositoryId`: `None` when the value is empty. -/
def RepositoryId.new (value : String) : Option RepositoryId :=
  if value.isEmpty then none else some ⟨value⟩

/-- `string_id!` `as_str` for `RepositoryId`. -/
def RepositoryId.as_str (x : RepositoryId) : String := x.val

/-- `DomainServiceName(String)` — a configured domain service name. -/
structure DomainServiceName where
  val : String
deriving DecidableEq, Repr

/-- `string_id!` `new` for `DomainServiceName`: `None` when the value is empty. -/
def DomainServiceName.new (value : String) : Option DomainServiceName :=
  if value.isEmpty then none else some ⟨value⟩

/-- `string_id!` `as_str` for `DomainServiceName`. -/
def DomainServiceName.as_str (x : DomainServiceName) : String := x.val

/-- `ArtifactPath(String)` — a path relative to the repository root. -/
structure ArtifactPath where
  val : String
deriving DecidableEq, Repr

/-- `string_id!` `new` for `ArtifactPath`: `None` when the value is empty. -/
def ArtifactPath.new (value : String) : Option ArtifactPath :=
  if value.isEmpty then none else some ⟨value⟩

/-- `string_id!` `as_str` for `ArtifactPath`. -/
def ArtifactPath.as_str (x : ArtifactPath) : String := x.val

/-- `InterfaceId(String)` — an interface contract identifier. -/
structure InterfaceId where
  val : String
deriving DecidableEq, Repr

/-- `string_id!` `new` for `InterfaceId`: `None` when the value is empty. -/
def InterfaceId.new (value : String) : Option InterfaceId :=
  if value.isEmpty then none else some ⟨value⟩

/-- `string_id!` `as_str` for `InterfaceId`. -/
def InterfaceId.as_str (x : InterfaceId) : String := x.val

/-- `ContextPackId(String)` — a Context Pack directory name. -/
structure ContextPackId where
  val : String
deriving DecidableEq, Repr

/-- `string_id!` `new` for `ContextPackId`: `None` when the value is empty. -/
def ContextPackId.new (value : String) : Option ContextPackId :=
  if value.isEmpty then none else some ⟨value⟩

/-- `string_id!` `as_str` for `ContextPackId`. -/
def ContextPackId.as_str (x : ContextPackId) : String := x.val

/-- `SkillName(String)` — a skill identifier. -/
structure SkillName where
  val : String
deriving DecidableEq, Repr

/-- `string_id!` `new` for `SkillName`: `None` when the value is empty. -/
def SkillName.new (value : String) : Option SkillName :=
  if value.isEmpty then none else some ⟨value⟩

/-- `string_id!` `as_str` for `SkillName`. -/
def SkillName.as_str (x : SkillName) : String := x.val

/-- `ToolName(String)` — a tool identifier. -/
structure ToolName where
  val : String
deriving DecidableEq, Repr

/-- `string_id!` `new` for `ToolName`: `None` when the value is empty. -/
def ToolName.new (value : String) : Option ToolName :=
  if value.isEmpty then none else some ⟨value⟩

/-- `string_id!` `as_str` for `ToolName`. -/
def ToolName.as_str (x : ToolName) : String := x.val

/-- `ProfileName(String)` — a tool profile identifier. -/
structure ProfileName where
  val : String
deriving DecidableEq, Repr

/-- `string_id!` `new` for `ProfileName`: `None` when the value is empty. -/
def ProfileName.new (value : String) : Option ProfileName :=
  if value.isEmpty then none else some ⟨value⟩

/-- `string_id!` `as_str` for `ProfileName`. -/
def ProfileName.as_str (x : ProfileName) : String := x.val

/-- `CogWorksError` — errors that halt or escalate the pipeline
(`crates/pipeline/src/errors.rs`). -/
inductive CogWorksError where
  | PipelineHalt (reason : String)
  | BudgetExceeded (accumulated : TokenCost) (limit : CostBudget)
  | InjectionDetected (source_document : String) (offending_text : String)
  | ConstitutionalRulesMissing
  | ProtectedPathViolation (path : ArtifactPath)
  | ScopeViolation (description : String)
  | ConfigurationError (msg : String)
deriving DecidableEq, Repr

/-- Rendered error message of a `CogWorksError`, mirroring the
`#[error("...")]` format strings produced by `thiserror` for each variant. -/
def CogWorksError.message : CogWorksError → String
  | .PipelineHalt reason => "Pipeline halted: " ++ reason
  | .BudgetExceeded accumulated limit =>
      "Cost budget exceeded: accumulated " ++ accumulated.display
        ++ ", limit " ++ limit.display
  | .InjectionDetected src text =>
      "Injection detected in \x27" ++ src ++ "\x27: " ++ text
  | .ConstitutionalRulesMissing =>
      "Constitutional rules could not be loaded or validated"
  | .ProtectedPathViolation path => "Protected path violation: " ++ path.as_str
  | .ScopeViolation description => "Scope violation: " ++ description
  | .ConfigurationError m => "Configuration error: " ++ m

/-- Modelled from the spec: the Cost & Retry Policy Engine's `charge`
operation (`charge(run, amount) -> Ok | BudgetExceeded`) is not part of
the scaffold under `crates/`; only the value types it uses are.  Per the
spec, charges of one run serialize through one logical accumulator, and
the first charge that would make `accumulated ≥ cap` returns
`BudgetExceeded`, reported with the accumulated and limit values.  The
exceeded check is the source `CostBudget::is_exceeded_by`; the addition
is the source `impl Add for TokenCost`. -/
def charge (cap : CostBudget) (acc amount : TokenCost) :
    Except CogWorksError TokenCost :=
  let acc2 := acc.add amount
  if cap.is_exceeded_by acc2 then
    .error (.BudgetExceeded acc2 cap)
  else
    .ok acc2

/-- Modelled from the spec: a run's accumulated cost is "the sum of every
node's reported cost" — the fold of the source `impl Add for TokenCost`
over the recorded charges, starting from `TokenCost::zero`.  The run
bookkeeping itself is not part of the scaffold under `crates/`. -/
def accumulate (charges : List TokenCost) : TokenCost :=
  charges.foldl TokenCost.add TokenCost.zero

end CogWorks

namespace CogWorks

/-- **C1.** For every cost-budget cap `C` and accumulated spend `A` (both
finite, as every constructed `CostBudget`/`TokenCost` is), the budget is
reported as exceeded exactly when `A ≥ C`, and the boundary case `A = C`
counts as exceeded. -/
theorem c1_is_exceeded_by_iff_ge (C A : ℚ) :
    (CostBudget.is_exceeded_by ⟨F64.finite C⟩ ⟨F64.finite A⟩ = true ↔ C ≤ A)
      ∧ CostBudget.is_exceeded_by ⟨F64.finite C⟩ ⟨F64.finite C⟩ = true := by
  refine ⟨?_, ?_⟩ <;>
    simp [CostBudget.is_exceeded_by, TokenCost.as_f64, F64.ge, F64.le]

/-- **C2.** The handshake compatibility check succeeds exactly when the
major versions are equal and the remote minor is at least the local
minor; local `2.1` is compatible with remote `2.3`, and local `2.1` is
not compatible with remote `3.0`. -/
theorem c2_compatibility_rule :
    (∀ L R : ApiVersion,
        L.is_compatible_with R = true ↔ (L.major = R.major ∧ L.minor ≤ R.minor))
      ∧ (ApiVersion.new 2 1).is_compatible_with (ApiVersion.new 2 3) = true
      ∧ (ApiVersion.new 2 1).is_compatible_with (ApiVersion.new 3 0) = false := by
  refine ⟨fun L R => ?_, by decide, by decide⟩
  simp [ApiVersion.is_compatible_with]

/-- Folding `TokenCost.add` over a list of finite charges, starting from a
finite value, yields the finite exact sum. -/
theorem foldl_add_finite (l : List ℚ) (a : ℚ) :
    (l.map fun q => (⟨F64.finite q⟩ : TokenCost)).foldl TokenCost.add ⟨F64.finite a⟩
      = ⟨F64.finite (a + l.sum)⟩ := by
  induction l generalizing a with
  | nil => simp
  | cons q l ih =>
      simp only [List.map_cons, List.foldl_cons, List.sum_cons]
      rw [show TokenCost.add ⟨F64.finite a⟩ ⟨F64.finite q⟩ = ⟨F64.finite (a + q)⟩ from rfl,
        ih, add_assoc]

/-- The accumulated cost over a list of finite charges is the finite
exact sum of the list. -/
theorem accumulate_finite (l : List ℚ) :
    accumulate (l.map fun q => (⟨F64.finite q⟩ : TokenCost)) = ⟨F64.finite l.sum⟩ := by
  simpa [accumulate, TokenCost.zero] using foldl_add_finite l 0

/-- **C3.** A charge whose addition leaves the accumulated total strictly
below the cap returns `Ok` with the new total; a charge whose addition
makes the total reach or exceed the cap returns `BudgetExceeded`
carrying that total and the cap.  With cap `$10` and two sequential `$6`
charges, the first succeeds and the second yields `BudgetExceeded` at
`$12 ≥ $10`. -/
theorem c3_charge_ok_or_budget_exceeded (C A q : ℚ) :
    (A + q < C →
        charge ⟨F64.finite C⟩ ⟨F64.finite A⟩ ⟨F64.finite q⟩
          = .ok ⟨F64.finite (A + q)⟩)
      ∧ (C ≤ A + q →
        charge ⟨F64.finite C⟩ ⟨F64.finite A⟩ ⟨F64.finite q⟩
          = .error (.BudgetExceeded ⟨F64.finite (A + q)⟩ ⟨F64.finite C⟩))
      ∧ charge ⟨F64.finite 10⟩ TokenCost.zero ⟨F64.finite 6⟩
          = .ok ⟨F64.finite 6⟩
      ∧ charge ⟨F64.finite 10⟩ ⟨F64.finite 6⟩ ⟨F64.finite 6⟩
          = .error (.BudgetExceeded ⟨F64.finite 12⟩ ⟨F64.finite 10⟩) := by
  refine ⟨fun h => ?_, fun h => ?_, ?_, ?_⟩
  · have hb : CostBudget.is_exceeded_by ⟨F64.finite C⟩
        (TokenCost.add ⟨F64.finite A⟩ ⟨F64.finite q⟩) = false := by
      simp [CostBudget.is_exceeded_by, TokenCost.as_f64, TokenCost.add,
        F64.add, F64.ge, F64.le]
      linarith
    simp [charge, TokenCost.add, F64.add] at hb ⊢
    simp [hb]
  · have hb : CostBudget.is_exceeded_by ⟨F64.finite C⟩
        (TokenCost.add ⟨F64.finite A⟩ ⟨F64.finite q⟩) = true := by
      simpa [CostBudget.is_exceeded_by, TokenCost.as_f64, TokenCost.add,
        F64.add, F64.ge, F64.le] using h
    simp [charge, TokenCost.add, F64.add] at hb ⊢
    simp [hb]
  · norm_num [charge, TokenCost.zero, TokenCost.add, F64.add,
      CostBudget.is_exceeded_by, TokenCost.as_f64, F64.ge, F64.le]
  · norm_num [charge, TokenCost.add, F64.add,
      CostBudget.is_exceeded_by, TokenCost.as_f64, F64.ge, F64.le]

/-- Witness for C3 at cap `$10`, charges `$6` then `$6`, discharging both
threshold hypotheses at concrete values. -/
theorem c3_witness :
    charge ⟨F64.finite 10⟩ ⟨F64.finite 0⟩ ⟨F64.finite 6⟩
        = .ok ⟨F64.finite (0 + 6)⟩
      ∧ charge ⟨F64.finite 10⟩ ⟨F64.finite 6⟩ ⟨F64.finite 6⟩
        = .error (.BudgetExceeded ⟨F64.finite (6 + 6)⟩ ⟨F64.finite 10⟩) :=
  ⟨(c3_charge_ok_or_budget_exceeded 10 0 6).1 (by norm_num),
    (c3_charge_ok_or_budget_exceeded 10 6 6).2.1 (by norm_num)⟩

/-- **C4 counterexample.** Zero is finite and non-negative, yet
`CostBudget::new(0.0)` returns `None`: the claim that the `CostBudget`
constructor accepts every non-negative finite cap, including zero,
fails at the concrete input `0.0`. -/
theorem c4_counterexample :
    (F64.finite 0).isFinite = true
      ∧ F64.ge (F64.finite 0) (F64.finite 0) = true
      ∧ CostBudget.new (F64.finite 0) = none := by
  refine ⟨rfl, by norm_num [F64.ge, F64.le], ?_⟩
  norm_num [CostBudget.new, F64.isFinite, F64.gt, F64.lt, F64.le]

/-- **C4 (amended).** `TokenCost::new` returns `Some` exactly when its
argument is finite and non-negative (zero accepted); `CostBudget::new`
returns `Some` exactly when its cap is finite and strictly positive
(zero and negative caps rejected, as are NaN and the infinities). -/
theorem c4_constructor_ranges (v : F64) :
    ((TokenCost.new v).isSome = true ↔ ∃ q, v = F64.finite q ∧ 0 ≤ q)
      ∧ ((CostBudget.new v).isSome = true ↔ ∃ q, v = F64.finite q ∧ 0 < q) := by
  cases v <;>
    simp [TokenCost.new, CostBudget.new, F64.isFinite,
      F64.ge, F64.gt, F64.lt, F64.le]
  exact fun h => le_of_lt h

/-- **C5.** Over any sequence of valid (finite, non-negative) recorded
charges, the accumulated cost after each charge is at least the
accumulated cost before it, and the final accumulated cost is exactly
the sum of all recorded charges. -/
theorem c5_accumulate_monotone_and_total (qs : List ℚ)
    (hpos : ∀ q ∈ qs, 0 ≤ q) :
    (∀ i, i < qs.length →
        F64.le (accumulate ((qs.take i).map fun q => ⟨F64.finite q⟩)).val
          (accumulate ((qs.take (i + 1)).map fun q => ⟨F64.finite q⟩)).val = true)
      ∧ accumulate (qs.map fun q => ⟨F64.finite q⟩) = ⟨F64.finite qs.sum⟩ := by
  refine ⟨fun i h => ?_, accumulate_finite qs⟩
  rw [accumulate_finite, accumulate_finite]
  have hsum : (qs.take (i + 1)).sum = (qs.take i).sum + qs.get ⟨i, h⟩ :=
    List.sum_take_succ qs i h
  have hq : 0 ≤ qs.get ⟨i, h⟩ := hpos _ (qs.get_mem i h)
  simp only [F64.le, hsum, decide_eq_true_eq]
  linarith

/-- Witness for C5 at the concrete charge list `[1/2, 2]`. -/
theorem c5_witness :
    accumulate ([(1 : ℚ)/2, 2].map fun q => ⟨F64.finite q⟩)
      = ⟨F64.finite ([(1 : ℚ)/2, 2].sum)⟩ :=
  (c5_accumulate_monotone_and_total [(1 : ℚ)/2, 2] (by norm_num)).2

/-- **C6.** The `SatisfactionScore` and `AlignmentScore` constructors
return `Some` exactly when the value is finite and lies in the closed
interval `[0, 1]`; NaN and the infinities are always rejected. -/
theorem c6_score_ranges (v : F64) :
    ((SatisfactionScore.new v).isSome = true
        ↔ ∃ q, v = F64.finite q ∧ 0 ≤ q ∧ q ≤ 1)
      ∧ ((AlignmentScore.new v).isSome = true
        ↔ ∃ q, v = F64.finite q ∧ 0 ≤ q ∧ q ≤ 1)
      ∧ SatisfactionScore.new F64.nan = none
      ∧ SatisfactionScore.new F64.posInf = none
      ∧ AlignmentScore.new F64.nan = none
      ∧ AlignmentScore.new F64.negInf = none := by
  cases v <;>
    simp [SatisfactionScore.new, AlignmentScore.new, F64.isFinite, F64.le]

/-- **C8.** Every `BudgetExceeded` error value carries the accumulated
spend and the configured limit, and its rendered message reports both,
in the format `Cost budget exceeded: accumulated $A, limit $L`; at
accumulated `$12` and limit `$10` the message renders both values. -/
theorem c8_budget_error_reports :
    (∀ (a : TokenCost) (l : CostBudget),
        CogWorksError.message (.BudgetExceeded a l)
          = "Cost budget exceeded: accumulated " ++ a.display
            ++ ", limit " ++ l.display)
      ∧ CogWorksError.message
          (.BudgetExceeded ⟨F64.finite 12⟩ ⟨F64.finite 10⟩)
          = "Cost budget exceeded: accumulated $12.000000, limit $10.000000" := by
  exact ⟨fun a l => rfl, by decide⟩

/-- **C9.** For every string-backed identifier kind, `new s` returns
`None` exactly when `s` is empty, and whenever it returns `Some id`,
`id.as_str` round-trips to `s`. -/
theorem c9_string_id_roundtrip (s : String) :
    ((NodeId.new s = none ↔ s.isEmpty = true)
        ∧ ∀ id, NodeId.new s = some id → id.as_str = s)
      ∧ ((EdgeId.new s = none ↔ s.isEmpty = true)
        ∧ ∀ id, EdgeId.new s = some id → id.as_str = s)
      ∧ ((PipelineName.new s = none ↔ s.isEmpty = true)
        ∧ ∀ id, PipelineName.new s = some id → id.as_str = s)
      ∧ ((BranchName.new s = none ↔ s.isEmpty = true)
        ∧ ∀ id, BranchName.new s = some id → id.as_str = s)
      ∧ ((CommitSha.new s = none ↔ s.isEmpty = true)
        ∧ ∀ id, CommitSha.new s = some id → id.as_str = s)
      ∧ ((RepositoryId.new s = none ↔ s.isEmpty = true)
        ∧ ∀ id, RepositoryId.new s = some id → id.as_str = s)
      ∧ ((DomainServiceName.new s = none ↔ s.isEmpty = true)
        ∧ ∀ id, DomainServiceName.new s = some id → id.as_str = s)
      ∧ ((ArtifactPath.new s = none ↔ s.isEmpty = true)
        ∧ ∀ id, ArtifactPath.new s = some id → id.as_str = s)
      ∧ ((InterfaceId.new s = none ↔ s.isEmpty = true)
        ∧ ∀ id, InterfaceId.new s = some id → id.as_str = s)
      ∧ ((ContextPackId.new s = none ↔ s.isEmpty = true)
        ∧ ∀ id, ContextPackId.new s = some id → id.as_str = s)
      ∧ ((SkillName.new s = none ↔ s.isEmpty = true)
        ∧ ∀ id, SkillName.new s = some id → id.as_str = s)
      ∧ ((ToolName.new s = none ↔ s.isEmpty = true)
        ∧ ∀ id, ToolName.new s = some id → id.as_str = s)
      ∧ ((ProfileName.new s = none ↔ s.isEmpty = true)
        ∧ ∀ id, ProfileName.new s = some id → id.as_str = s) := by
  by_cases h : s.isEmpty <;>
    simp [NodeId.new, EdgeId.new, PipelineName.new, BranchName.new,
      CommitSha.new, RepositoryId.new, DomainServiceName.new,
      ArtifactPath.new, InterfaceId.new, ContextPackId.new,
      SkillName.new, ToolName.new, ProfileName.new,
      NodeId.as_str, EdgeId.as_str, PipelineName.as_str, BranchName.as_str,
      CommitSha.as_str, RepositoryId.as_str, DomainServiceName.as_str,
      ArtifactPath.as_str, InterfaceId.as_str, ContextPackId.as_str,
      SkillName.as_str, ToolName.as_str, ProfileName.as_str, h]

/-- Witness for C9 at the concrete strings `""` (rejected) and `"x"`
(accepted and round-tripped). -/
theorem c9_witness :
    NodeId.new "" = none ∧ (NodeId.mk "x").as_str = "x" :=
  ⟨(c9_string_id_roundtrip "").1.1.mpr (by decide),
    (c9_string_id_roundtrip "x").1.2 ⟨"x"⟩ (by decide)⟩

/-- **C10.** API-version compatibility is reflexive and transitive. -/
theorem c10_compat_refl_trans :
    (∀ v : ApiVersion, v.is_compatible_with v = true)
      ∧ ∀ a b c : ApiVersion, a.is_compatible_with b = true →
          b.is_compatible_with c = true → a.is_compatible_with c = true := by
  constructor
  · intro v
    simp [ApiVersion.is_compatible_with]
  · intro a b c hab hbc
    simp only [ApiVersion.is_compatible_with, Bool.and_eq_true, beq_iff_eq,
      decide_eq_true_eq] at hab hbc ⊢
    omega

/-- Witness for C10: transitivity applied at `1.0 → 1.1 → 1.2`. -/
theorem c10_witness :
    (ApiVersion.new 1 0).is_compatible_with (ApiVersion.new 1 2) = true :=
  c10_compat_refl_trans.2 (ApiVersion.new 1 0) (ApiVersion.new 1 1)
    (ApiVersion.new 1 2) (by decide) (by decide)

end CogWorks
